import Mathlib

/-!
Verification of the EET→Shopify catalog reconciliation engine.

A shallow embedding of the repository's core logic:
* `module/csvParseAndFilter.js` — numeric feed-field parsing (`cleanProductData`)
  and the include/exclude/limit filter (`filterProducts`, `loadFilterConfig`);
* the Shopify client (`makeOrphanedProductsDraft`, `updateProductQuantity`,
  `updateProductPrice`);
* the per-item body of the live-update loop in `index.js` (`main`, STEP 7).

JavaScript numbers are modelled by exact rationals `ℚ` (a `parseFloat` result
of NaN is modelled by `none : Option ℚ`); machine integers by `ℤ`.  Fallible
JavaScript (a thrown `TypeError`) is modelled by an explicit error component.
-/

namespace EETShopify

/-! ## JavaScript `parseFloat`, modelled over exact rationals

`parseFloat` skips leading whitespace, then reads the longest prefix of the
form `[+-]? digits [. digits*]? [eE [+-]? digits]?` (also `.digits`); if no
such prefix exists the result is NaN, modelled as `none`.  IEEE-754 rounding
and the `Infinity` literal are outside the model. -/

/-- Numeric value of a list of decimal digit characters (most significant first). -/
def digitsVal (ds : List Char) : ℕ :=
  ds.foldl (fun a c => 10 * a + (c.toNat - '0'.toNat)) 0

/-- Split a character list into its leading run of decimal digits and the rest. -/
def takeDigits (cs : List Char) : List Char × List Char :=
  (cs.takeWhile Char.isDigit, cs.dropWhile Char.isDigit)

/-- Parse an optional exponent part `eE [+-]? digits`; a missing or malformed
exponent contributes `0` (it is simply not consumed). -/
def parseExpPart (cs : List Char) : ℤ :=
  match cs with
  | [] => 0
  | c :: rest =>
    if c = 'e' ∨ c = 'E' then
      match rest with
      | '+' :: r => (if (takeDigits r).1 = [] then 0 else (digitsVal (takeDigits r).1 : ℤ))
      | '-' :: r => (if (takeDigits r).1 = [] then 0 else -(digitsVal (takeDigits r).1 : ℤ))
      | r => (if (takeDigits r).1 = [] then 0 else (digitsVal (takeDigits r).1 : ℤ))
    else 0

/-- Core of the `parseFloat` model, on character lists. -/
def jsParseFloatCore (cs0 : List Char) : Option ℚ :=
  let cs := cs0.dropWhile Char.isWhitespace
  let signAndRest : ℚ × List Char :=
    match cs with
    | '+' :: r => (1, r)
    | '-' :: r => (-1, r)
    | r => (1, r)
  let intPart := takeDigits signAndRest.2
  let fracPart : List Char × List Char :=
    match intPart.2 with
    | '.' :: r => takeDigits r
    | r => ([], r)
  if intPart.1 = [] ∧ fracPart.1 = [] then none
  else
    let mant : ℚ :=
      (digitsVal intPart.1 : ℚ) + (digitsVal fracPart.1 : ℚ) / ((10 : ℚ) ^ fracPart.1.length)
    some (signAndRest.1 * mant * (10 : ℚ) ^ parseExpPart fracPart.2)

/-- Model of JavaScript `parseFloat` on a string; `none` is NaN. -/
def jsParseFloat (s : String) : Option ℚ :=
  jsParseFloatCore s.data

/-- `str.replace(',', '.')` — replace the FIRST comma only (string-pattern
`String.prototype.replace` semantics). -/
def replaceFirstComma : List Char → List Char
  | [] => []
  | c :: cs => if c = ',' then '.' :: cs else c :: replaceFirstComma cs

/-- The comma-to-dot normalization applied to a numeric feed field. -/
def commaToDot (s : String) : String :=
  ⟨replaceFirstComma s.data⟩

/-- `cleanRow.field?.replace(',', '.') || '0'` — a missing field (optional
chaining gives `undefined`) or an empty string (falsy) is replaced by `"0"`. -/
def numFieldString : Option String → String
  | none => "0"
  | some t => if commaToDot t = "" then "0" else commaToDot t

/-- How `cleanProductData` parses each numeric field (`pris`,
`lagerbeholdning`, `bruttovaegt`, `nettovaegt`):
`parseFloat(cleanRow.field?.replace(',', '.') || '0')`. -/
def parseNumField (v : Option String) : Option ℚ :=
  jsParseFloat (numFieldString v)

/-! ## Feed records and the filter engine (`csvParseAndFilter.js`) -/

/-- A cleaned feed record; only the fields the filter engine and the
reconciliation driver read are retained (`varenr` = SKU, `maerke_navn` =
brand, `pris` = price, `lagerbeholdning` = feed stock; a numeric field is
`none` when it parsed to NaN). -/
structure EETRecord where
  varenr : String
  maerke_navn : String
  pris : Option ℚ := some 0
  lagerbeholdning : Option ℚ := some 0
deriving DecidableEq, Repr

/-- The `include` / `exclude` sections of `config/product-filter.json`;
`none` models an absent (`undefined`) key. -/
structure BrandSkuSpec where
  brand : Option (List String) := none
  sku : Option (List String) := none
deriving DecidableEq, Repr

/-- The filter configuration.  `incl` embeds the JSON key `include`, `excl`
embeds `exclude` (the JavaScript names are Lean keywords); `none` models an
absent key (falsy), `some {}` models an empty object (truthy in JavaScript). -/
structure FilterConfig where
  incl : Option BrandSkuSpec := none
  excl : Option BrandSkuSpec := none
  include_products_limit : Option ℤ := none
deriving DecidableEq, Repr

/-- The include pass of `filterProducts` (OR semantics): active only when at
least one include list is non-empty; keeps a record iff its lowercased brand
is in the brand list (or that list is empty) OR its lowercased SKU is in the
SKU list (or that list is empty). -/
def includePass (cfg : FilterConfig) (ps : List EETRecord) : List EETRecord :=
  match cfg.incl with
  | none => ps
  | some inc =>
    let includeBrands := (inc.brand.getD []).map String.toLower
    let includeSkus := (inc.sku.getD []).map String.toLower
    if 0 < includeBrands.length ∨ 0 < includeSkus.length then
      ps.filter (fun p =>
        (includeBrands.length = 0 ∨ p.maerke_navn.toLower ∈ includeBrands) ∨
        (includeSkus.length = 0 ∨ p.varenr.toLower ∈ includeSkus))
    else ps

/-- The brand-exclude pass of `filterProducts`: active when `exclude.brand`
exists and is non-empty; drops records whose lowercased brand is in the
lowercased exclude list. -/
def excludeBrandPass (cfg : FilterConfig) (ps : List EETRecord) : List EETRecord :=
  match cfg.excl with
  | none => ps
  | some exc =>
    match exc.brand with
    | none => ps
    | some bs =>
      if 0 < bs.length then
        ps.filter (fun p => p.maerke_navn.toLower ∉ bs.map String.toLower)
      else ps

/-- The SKU-exclude pass of `filterProducts`: active when `exclude.sku`
exists and is non-empty; drops records whose lowercased SKU is in the
lowercased exclude list. -/
def excludeSkuPass (cfg : FilterConfig) (ps : List EETRecord) : List EETRecord :=
  match cfg.excl with
  | none => ps
  | some exc =>
    match exc.sku with
    | none => ps
    | some ss =>
      if 0 < ss.length then
        ps.filter (fun p => p.varenr.toLower ∉ ss.map String.toLower)
      else ps

/-- The limit pass of `filterProducts`: active when `include_products_limit`
is truthy and positive; truncates to the first `limit` records when the list
is longer than `limit`. -/
def limitPass (cfg : FilterConfig) (ps : List EETRecord) : List EETRecord :=
  match cfg.include_products_limit with
  | none => ps
  | some limit =>
    if 0 < limit then
      if (ps.length : ℤ) > limit then ps.take limit.toNat else ps
    else ps

/-- `filterProducts` — the include pass, the two exclude passes and the limit
pass, in the fixed order of the source. -/
def filterProducts (cfg : FilterConfig) (ps : List EETRecord) : List EETRecord :=
  limitPass cfg (excludeSkuPass cfg (excludeBrandPass cfg (includePass cfg ps)))

/-- The exclusion stage on its own (passes 2 and 3 of `filterProducts`). -/
def excludeStage (cfg : FilterConfig) (ps : List EETRecord) : List EETRecord :=
  excludeSkuPass cfg (excludeBrandPass cfg ps)

/-- A record matches the brand-exclusion rule: `exclude.brand` exists,
is non-empty, and contains the record's lowercased brand. -/
def brandExcluded (cfg : FilterConfig) (p : EETRecord) : Prop :=
  ∃ exc bs, cfg.excl = some exc ∧ exc.brand = some bs ∧ bs ≠ [] ∧
    p.maerke_navn.toLower ∈ bs.map String.toLower

/-- A record matches the SKU-exclusion rule: `exclude.sku` exists,
is non-empty, and contains the record's lowercased SKU. -/
def skuExcluded (cfg : FilterConfig) (p : EETRecord) : Prop :=
  ∃ exc ss, cfg.excl = some exc ∧ exc.sku = some ss ∧ ss ≠ [] ∧
    p.varenr.toLower ∈ ss.map String.toLower

/-- `loadFilterConfig` returns the parsed `config/product-filter.json` when
reading and parsing succeed, and the default `{ include: {}, exclude: {} }`
otherwise (the `catch` branch).  The file-read-and-parse outcome is the
`Option` argument. -/
def loadFilterConfig (readResult : Option FilterConfig) : FilterConfig :=
  match readResult with
  | some cfg => cfg
  | none => { incl := some {}, excl := some {} }

/-! ## Shopify catalog model (the `ShopifyClient` class)

GraphQL node lists (`variants.nodes`, `inventoryLevels.nodes`) are plain
lists; an absent (`undefined`/`null`) JavaScript object field is `none`. -/

/-- One node of `inventoryItem.inventoryLevels.nodes`; only `location.id` is read. -/
structure InventoryLevelNode where
  locationId : String
deriving DecidableEq, Repr

/-- `variant.inventoryItem`. -/
structure InventoryItem where
  id : String := ""
  sku : Option String := none
  levels : List InventoryLevelNode := []
deriving DecidableEq, Repr

/-- One node of `product.variants.nodes`.  `price` is the string the GraphQL
API returns. -/
structure VariantNode where
  id : String := ""
  price : String := ""
  inventoryQuantity : ℤ := 0
  inventoryItem : Option InventoryItem := none
deriving DecidableEq, Repr

/-- A product of the remote catalog snapshot. -/
structure ShopifyProduct where
  id : String
  title : String := ""
  status : String := "ACTIVE"
  variants : Option (List VariantNode) := none
deriving DecidableEq, Repr

/-- JavaScript truthiness of an optional string: `undefined`, `null` and the
empty string are falsy. -/
def truthyStr : Option String → Bool
  | none => false
  | some s => s != ""

/-- The per-variant test of `makeOrphanedProductsDraft`:
`variant.inventoryItem && variant.inventoryItem.sku && !eetSkus.has(variant.inventoryItem.sku)`. -/
def variantMissingFromEET (eetSkus : List String) (variant : VariantNode) : Bool :=
  match variant.inventoryItem with
  | some item => truthyStr item.sku && !(eetSkus.contains (item.sku.getD ""))
  | none => false

/-- The orphan filter of `makeOrphanedProductsDraft`: skip products already
in DRAFT status; otherwise keep a product when SOME variant has an inventory
SKU missing from the EET SKU set. -/
def orphanPred (eetSkus : List String) (shopifyProduct : ShopifyProduct) : Bool :=
  if shopifyProduct.status = "DRAFT" then false
  else
    match shopifyProduct.variants with
    | some nodes => nodes.any (variantMissingFromEET eetSkus)
    | none => false

/-- The list of products for which `makeOrphanedProductsDraft` issues a
DRAFT transition (the `shopifyProductsNotInEET` variable of the source: the
loop calls `makeProductDraft` exactly on these). -/
def shopifyProductsNotInEET (shopifyProducts : List ShopifyProduct)
    (eetProducts : List EETRecord) : List ShopifyProduct :=
  let eetSkus := eetProducts.map (fun p => p.varenr)
  shopifyProducts.filter (orphanPred eetSkus)

/-- The inventory SKUs carried by a product's variants. -/
def variantSkus (p : ShopifyProduct) : List String :=
  (p.variants.getD []).filterMap (fun v => v.inventoryItem.bind (fun it => it.sku))

/-- The `inventoryAdjustQuantities` mutation issued by
`updateProductQuantity`; the quantity change is sent as the `delta` field. -/
structure InvAdjustMutation where
  delta : ℤ
  inventoryItemId : String
  locationId : String
deriving DecidableEq, Repr

/-- The `{success, error?}` object returned by the update methods. -/
structure CallResult where
  success : Bool
  error : Option String := none
deriving DecidableEq, Repr

/-- `updateProductQuantity(sku, newQuantity, product)`.  The first component
is the inventory mutation issued to the remote catalog (`none` when no
mutation is sent); `respUserErrors` models the `userErrors` array of the
remote response.  A thrown `TypeError` (absent `variants`) is converted by
the outer catch into a failure result. -/
def updateProductQuantity (sku : String) (newQuantity : Option ℤ)
    (product : Option ShopifyProduct) (respUserErrors : List String) :
    Option InvAdjustMutation × CallResult :=
  match product with
  | none => (none, ⟨false, some ("Product with SKU " ++ sku ++ " not found")⟩)
  | some prod =>
    match prod.variants with
    | none => (none, ⟨false, some "TypeError"⟩)
    | some nodes =>
      match nodes.head? with
      | none => (none, ⟨false, some ("No variants found for product " ++ sku)⟩)
      | some variant =>
        match newQuantity, variant.inventoryItem with
        | some nq, some item =>
          if variant.inventoryQuantity ≠ nq then
            match item.levels.head? with
            | some lvl =>
              let delta := nq - variant.inventoryQuantity
              let m : InvAdjustMutation := ⟨delta, item.id, lvl.locationId⟩
              let result : CallResult :=
                if 0 < respUserErrors.length then
                  ⟨false, some ("Inventory update failed: " ++
                    String.intercalate ", " respUserErrors)⟩
                else ⟨true, none⟩
              (some m, result)
            | none => (none, ⟨false, some "No inventory location found for product"⟩)
          else (none, ⟨false, some "No inventory item found or quantity not provided"⟩)
        | _, _ => (none, ⟨false, some "No inventory item found or quantity not provided"⟩)

/-- The `productVariantsBulkUpdate` mutation issued by `updateProductPrice`;
`price` is the rational value serialized to two decimal places in the
GraphQL string. -/
structure PriceMutation where
  productId : String
  variantId : String
  price : ℚ
deriving DecidableEq, Repr

/-- Model of JavaScript `(x).toFixed(2)` on exact rationals: round to the
nearest hundredth (IEEE-754 double artifacts are outside the model). -/
def toFixed2 (q : ℚ) : ℚ := (round (q * 100) : ℤ) / 100

/-- `updateProductPrice(sku, newPrice, product)`.  The guard
`variant.price !== newPrice` compares the variant's price string with the
number `newPrice`; strict inequality between distinct runtime types is
always true in JavaScript, so it never suppresses the update and is elided
here. -/
def updateProductPrice (sku : String) (newPrice : Option ℚ)
    (product : Option ShopifyProduct) (respUserErrors : List String) :
    Option PriceMutation × CallResult :=
  match product with
  | none => (none, ⟨false, some ("Product with SKU " ++ sku ++ " not found")⟩)
  | some prod =>
    match prod.variants with
    | none => (none, ⟨false, some "TypeError"⟩)
    | some nodes =>
      match nodes.head? with
      | none => (none, ⟨false, some ("No variants found for product " ++ sku)⟩)
      | some variant =>
        match newPrice with
        | some np =>
          let priceInDecimal := toFixed2 (np / 100)
          let m : PriceMutation := ⟨prod.id, variant.id, priceInDecimal⟩
          let result : CallResult :=
            if 0 < respUserErrors.length then
              ⟨false, some ("Price update failed: " ++
                String.intercalate ", " respUserErrors)⟩
            else ⟨true, none⟩
          (some m, result)
        | none => (none, ⟨false, some "Price not provided"⟩)

/-! ## The live-update loop of `index.js` (STEP 7, per-item body) -/

/-- `eetItem.Price` — the vendor's price object. -/
structure EETPriceInfo where
  Price : ℚ
  VatAmount : ℚ
deriving DecidableEq, Repr

/-- One entry of `eetItem.Stock`. -/
structure StockEntry where
  StockTypeName : String
  Quantity : ℤ
deriving DecidableEq, Repr

/-- One item returned by the vendor's price/stock API. -/
structure EETItem where
  ItemId : String
  Price : Option EETPriceInfo := none
  Stock : Option (List StockEntry) := none
deriving DecidableEq, Repr

/-- Final value of the `localStock` / `remoteStock` / `incomingStock`
variable for a given `StockTypeName` after the `forEach` over the stock
entries: each matching entry overwrites the variable (last one wins), `0`
if no entry matches. -/
def lastQuantityOf (typeName : String) (entries : List StockEntry) : ℤ :=
  entries.foldl (fun acc st => if st.StockTypeName = typeName then st.Quantity else acc) 0

/-- The remote calls the live-update loop body makes for one vendor item.
`makeActiveCall` records the call to `makeProductActive` — modelled from the
spec: `makeProductActive` is absent from the sources; per the spec it
transitions the matched product to ACTIVE status.  The other constructors
record calls to the `ShopifyClient` methods embedded above. -/
inductive DriverAction where
  | priceUpdateCall (sku : String) (price : ℚ)
  | quantityUpdateCall (sku : String) (quantity : ℤ)
  | stockObjectCall (sku : String) (stock : List StockEntry)
  | makeActiveCall (product : Option ShopifyProduct)
  | makeDraftCall (product : ShopifyProduct)
  | addTagsCall (productId : String) (tags : List String)
deriving DecidableEq, Repr

/-- The body of the `for (const eetItem of eetPriceAndStock)` loop in
`main` (STEP 7): price update, then quantity/stock/visibility, then brand
tag.  Returns the remote calls made and, when the body throws (the
unguarded reads `eetItem.Price.Price` and `stockObject.length`), the error
caught by the per-item `catch` — everything after the throw is skipped. -/
def processEetItem (item : EETItem) (product : Option ShopifyProduct)
    (brandName : String) : List DriverAction × Option String :=
  match item.Price with
  | none =>
    -- `const cost = parseFloat(eetItem.Price.Price)` runs unconditionally
    -- and throws a TypeError when `eetItem.Price` is absent
    ([], some "TypeError: cannot read Price of undefined")
  | some pr =>
    let price := pr.Price + pr.VatAmount
    let acts0 : List DriverAction := [DriverAction.priceUpdateCall item.ItemId price]
    match item.Stock with
    | none =>
      -- `stockObject.length` throws a TypeError when `eetItem.Stock` is absent
      (acts0, some "TypeError: cannot read length of null")
    | some entries =>
      let acts1 :=
        if 0 < entries.length then
          let localStock := lastQuantityOf "Local" entries
          let remoteStock := lastQuantityOf "Remote" entries
          acts0 ++ [DriverAction.quantityUpdateCall item.ItemId (localStock + remoteStock),
            DriverAction.stockObjectCall item.ItemId entries,
            DriverAction.makeActiveCall product]
        else
          match product with
          | some p => acts0 ++ [DriverAction.makeDraftCall p]
          | none => acts0
      let acts2 :=
        match product with
        | some p =>
          if brandName ≠ "" then acts1 ++ [DriverAction.addTagsCall p.id [brandName]]
          else acts1
        | none => acts1
      (acts2, none)

/-- Concrete feed record for the orphan-draft analysis (SKU `A`). -/
def feedRecordA : EETRecord := { varenr := "A", maerke_navn := "" }

/-- Concrete two-variant remote product: one variant's SKU (`A`) is in the
feed, the other (`B`) is not. -/
def twoVariantProduct : ShopifyProduct :=
  { id := "gid-1", status := "ACTIVE",
    variants := some
      [{ inventoryItem := some { id := "item-A", sku := some "A" } },
       { inventoryItem := some { id := "item-B", sku := some "B" } }] }

/-- Concrete vendor item whose only stock entry is `Incoming` (Local and
Remote both zero). -/
def incomingOnlyItem : EETItem :=
  { ItemId := "SKU1", Price := some ⟨100, 25⟩, Stock := some [⟨"Incoming", 10⟩] }

/-- Concrete matched remote product for the live-update analysis. -/
def matchedProduct1 : ShopifyProduct :=
  { id := "gid-P1", status := "DRAFT", variants := some [{}] }

/-- Concrete vendor item with no `Price` object but with stock data. -/
def noPriceItem : EETItem :=
  { ItemId := "SKU2", Price := none, Stock := some [⟨"Local", 3⟩] }

/-- Concrete matched remote product for the missing-price analysis. -/
def matchedProduct2 : ShopifyProduct :=
  { id := "gid-P2", status := "ACTIVE", variants := some [{}] }

/-- First-variant data used by the update-method witnesses. -/
def wlvl6 : InventoryLevelNode := ⟨"loc-6"⟩

def witem6 : InventoryItem := { id := "item-6", sku := some "S6", levels := [wlvl6] }

def wvariant6 : VariantNode := { id := "v6", inventoryQuantity := 3, inventoryItem := some witem6 }

def wproduct6 : ShopifyProduct := { id := "gid-6", variants := some [wvariant6] }

/-- Concrete vendor item for the C1 witness: one Local, one Remote and one
Incoming entry. -/
def witnessItem1 : EETItem :=
  { ItemId := "W1", Price := some ⟨10, 2⟩,
    Stock := some [⟨"Local", 3⟩, ⟨"Remote", 2⟩, ⟨"Incoming", 10⟩] }

/-- Concrete matched product for the C1 witness. -/
def witnessProduct1 : ShopifyProduct := { id := "gid-W1" }

/-! ## Lemmas about the filter passes -/

/-- The keep-predicate of the include pass (true when the pass is inactive). -/
def incKeep (cfg : FilterConfig) (p : EETRecord) : Bool :=
  match cfg.incl with
  | none => true
  | some inc =>
    let includeBrands := (inc.brand.getD []).map String.toLower
    let includeSkus := (inc.sku.getD []).map String.toLower
    if 0 < includeBrands.length ∨ 0 < includeSkus.length then
      decide ((includeBrands.length = 0 ∨ p.maerke_navn.toLower ∈ includeBrands) ∨
        (includeSkus.length = 0 ∨ p.varenr.toLower ∈ includeSkus))
    else true

/-- The keep-predicate of the brand-exclude pass. -/
def brandKeep (cfg : FilterConfig) (p : EETRecord) : Bool :=
  match cfg.excl with
  | none => true
  | some exc =>
    match exc.brand with
    | none => true
    | some bs =>
      if 0 < bs.length then decide (p.maerke_navn.toLower ∉ bs.map String.toLower)
      else true

/-- The keep-predicate of the SKU-exclude pass. -/
def skuKeep (cfg : FilterConfig) (p : EETRecord) : Bool :=
  match cfg.excl with
  | none => true
  | some exc =>
    match exc.sku with
    | none => true
    | some ss =>
      if 0 < ss.length then decide (p.varenr.toLower ∉ ss.map String.toLower)
      else true

theorem includePass_eq_filter (cfg : FilterConfig) (ps : List EETRecord) :
    includePass cfg ps = ps.filter (incKeep cfg) := by
  unfold includePass incKeep
  cases cfg.incl with
  | none => simp
  | some inc =>
    by_cases h : 0 < ((inc.brand.getD []).map String.toLower).length ∨
        0 < ((inc.sku.getD []).map String.toLower).length
    · simp only [h, if_true]
    · simp only [h, if_false, List.filter_true]

theorem excludeBrandPass_eq_filter (cfg : FilterConfig) (ps : List EETRecord) :
    excludeBrandPass cfg ps = ps.filter (brandKeep cfg) := by
  unfold excludeBrandPass brandKeep
  cases cfg.excl with
  | none => simp
  | some exc =>
    cases hb : exc.brand with
    | none => simp [hb]
    | some bs =>
      by_cases h : 0 < bs.length
      · simp only [hb, h, if_true]
      · simp only [hb, h, if_false, List.filter_true]

theorem excludeSkuPass_eq_filter (cfg : FilterConfig) (ps : List EETRecord) :
    excludeSkuPass cfg ps = ps.filter (skuKeep cfg) := by
  unfold excludeSkuPass skuKeep
  cases cfg.excl with
  | none => simp
  | some exc =>
    cases hb : exc.sku with
    | none => simp [hb]
    | some ss =>
      by_cases h : 0 < ss.length
      · simp only [hb, h, if_true]
      · simp only [hb, h, if_false, List.filter_true]

theorem brandKeep_iff (cfg : FilterConfig) (p : EETRecord) :
    brandKeep cfg p = true ↔ ¬ brandExcluded cfg p := by
  unfold brandKeep brandExcluded
  cases hexc : cfg.excl with
  | none => simp
  | some exc =>
    cases hb : exc.brand with
    | none => simp [hb]
    | some bs =>
      by_cases h : 0 < bs.length
      · have hne : bs ≠ [] := List.ne_nil_of_length_pos h
        simp [hb, h, hne]
      · have hnil : bs = [] := List.eq_nil_of_length_eq_zero (by omega)
        simp [hb, h, hnil]

theorem skuKeep_iff (cfg : FilterConfig) (p : EETRecord) :
    skuKeep cfg p = true ↔ ¬ skuExcluded cfg p := by
  unfold skuKeep skuExcluded
  cases hexc : cfg.excl with
  | none => simp
  | some exc =>
    cases hb : exc.sku with
    | none => simp [hb]
    | some ss =>
      by_cases h : 0 < ss.length
      · have hne : ss ≠ [] := List.ne_nil_of_length_pos h
        simp [hb, h, hne]
      · have hnil : ss = [] := List.eq_nil_of_length_eq_zero (by omega)
        simp [hb, h, hnil]

/-! ## Claim theorems for the filter engine and feed parsing -/

/-- Claim C4, counterexample: a non-numeric field value (`"abc"`) does not
parse to `0` as the claim states — JavaScript `parseFloat` yields `NaN`
(modelled `none`). -/
theorem parseNumField_nonNumeric_ne_zero :
    parseNumField (some "abc") ≠ some 0 ∧ parseNumField (some "abc") = none := by
  constructor
  · simp [parseNumField, numFieldString, commaToDot, replaceFirstComma, jsParseFloat,
      jsParseFloatCore, takeDigits, List.takeWhile, List.dropWhile, parseExpPart, digitsVal]
  · simp [parseNumField, numFieldString, commaToDot, replaceFirstComma, jsParseFloat,
      jsParseFloatCore, takeDigits, List.takeWhile, List.dropWhile, parseExpPart, digitsVal]

/-- Claim C4 (amended): numeric feed fields are parsed after replacing the
first `,` with `.`, so `"1250,50"` parses to `1250.50` and `"25"` to `25`;
an empty or missing field parses to `0`; but a non-numeric field (one with
no parsable numeric prefix) parses to NaN (`none`), not `0`.  Parsing never
throws (the model is a total function). -/
theorem parseNumField_spec :
    parseNumField (some "1250,50") = some ((2501 : ℚ) / 2) ∧
    parseNumField (some "25") = some 25 ∧
    parseNumField (some "") = some 0 ∧
    parseNumField none = some 0 ∧
    parseNumField (some "abc") = none := by
  refine ⟨?_, ?_, ?_, ?_, ?_⟩ <;>
    · simp [parseNumField, numFieldString, commaToDot, replaceFirstComma, jsParseFloat,
        jsParseFloatCore, takeDigits, List.takeWhile, List.dropWhile, parseExpPart, digitsVal]
      try norm_num

/-- Claim C3: the exclusion stage (brand-exclude pass then SKU-exclude pass)
drops a record if and only if its lowercased brand is in the non-empty
`exclude.brand` list OR its lowercased SKU is in the non-empty `exclude.sku`
list — OR-combined exclusion across the two independent passes. -/
theorem excludeStage_drop_iff (cfg : FilterConfig) (l : List EETRecord) (p : EETRecord)
    (hp : p ∈ l) :
    p ∉ excludeStage cfg l ↔ brandExcluded cfg p ∨ skuExcluded cfg p := by
  unfold excludeStage
  rw [excludeSkuPass_eq_filter, excludeBrandPass_eq_filter]
  simp only [List.mem_filter, skuKeep_iff, brandKeep_iff, hp, true_and]
  tauto

/-- Witness for C3: under `exclude.brand = ["Samsung"]`, the record with
brand `Samsung` and SKU `X1` is dropped by the exclusion stage, regardless
of its SKU. -/
theorem excludeStage_drop_iff_witness :
    (⟨"X1", "Samsung", some 0, some 0⟩ : EETRecord) ∉
      excludeStage { excl := some { brand := some ["Samsung"] } }
        [⟨"X1", "Samsung", some 0, some 0⟩] := by
  refine (excludeStage_drop_iff _ _ _ (List.mem_singleton.mpr rfl)).mpr (Or.inl ?_)
  exact ⟨{ brand := some ["Samsung"] }, ["Samsung"], rfl, rfl, by simp, by simp⟩

theorem limitPass_subset (cfg : FilterConfig) (ps : List EETRecord) :
    limitPass cfg ps ⊆ ps := by
  unfold limitPass
  cases cfg.include_products_limit with
  | none => exact fun _ h => h
  | some limit =>
    by_cases h : 0 < limit
    · by_cases h2 : (ps.length : ℤ) > limit
      · simp only [h, if_true, h2]
        exact List.take_subset _ _
      · simp only [h, if_true, h2, if_false]
        exact fun _ h => h
    · simp only [h, if_false]
      exact fun _ h => h

theorem limitPass_idem (cfg : FilterConfig) (ps : List EETRecord) :
    limitPass cfg (limitPass cfg ps) = limitPass cfg ps := by
  unfold limitPass
  cases cfg.include_products_limit with
  | none => rfl
  | some limit =>
    by_cases h : 0 < limit
    · by_cases h2 : (ps.length : ℤ) > limit
      · simp only [h, if_true, h2]
        have hlen : ((ps.take limit.toNat).length : ℤ) ≤ limit := by
          rw [List.length_take]
          have : (limit.toNat : ℤ) = limit := Int.toNat_of_nonneg (le_of_lt h)
          omega
        have : ¬ (((ps.take limit.toNat).length : ℤ) > limit) := by omega
        simp only [this, if_false]
      · simp only [h, if_true, h2, if_false]
    · simp only [h, if_false]

theorem filter_eq_self_of_forall {α : Type} (q : α → Bool) (l : List α)
    (h : ∀ a ∈ l, q a = true) : l.filter q = l :=
  List.filter_eq_self.mpr h

/-- Claim C7: `filterProducts` is idempotent — applying the same filter
configuration twice yields the same list as applying it once, including when
a positive `include_products_limit` is configured (the already-truncated
output is not reduced further). -/
theorem filterProducts_idempotent (cfg : FilterConfig) (l : List EETRecord) :
    filterProducts cfg (filterProducts cfg l) = filterProducts cfg l := by
  unfold filterProducts
  rw [includePass_eq_filter, excludeBrandPass_eq_filter, excludeSkuPass_eq_filter,
    includePass_eq_filter, excludeBrandPass_eq_filter, excludeSkuPass_eq_filter]
  set X := ((l.filter (incKeep cfg)).filter (brandKeep cfg)).filter (skuKeep cfg) with hX
  have hmem : ∀ p ∈ limitPass cfg X, incKeep cfg p = true ∧
      brandKeep cfg p = true ∧ skuKeep cfg p = true := by
    intro p hp
    have hpX : p ∈ X := limitPass_subset cfg X hp
    have h3 := List.of_mem_filter hpX
    have hpX2 := List.mem_of_mem_filter hpX
    have h2 := List.of_mem_filter hpX2
    have hpX1 := List.mem_of_mem_filter hpX2
    have h1 := List.of_mem_filter hpX1
    exact ⟨h1, h2, h3⟩
  rw [filter_eq_self_of_forall _ _ (fun a ha => (hmem a ha).1)]
  rw [filter_eq_self_of_forall _ _ (fun a ha => (hmem a ha).2.1)]
  rw [filter_eq_self_of_forall _ _ (fun a ha => (hmem a ha).2.2)]
  exact limitPass_idem cfg X

theorem variantMissingFromEET_iff (ks : List String) (v : VariantNode) :
    variantMissingFromEET ks v = true ↔
      ∃ it, v.inventoryItem = some it ∧
        ∃ s, it.sku = some s ∧ s ≠ "" ∧ s ∉ ks := by
  unfold variantMissingFromEET truthyStr
  cases hit : v.inventoryItem with
  | none => simp
  | some item =>
    cases hs : item.sku with
    | none => simp [hs]
    | some s => simp [hs, bne_iff_ne]

/-- Claim C2 (amended): `makeOrphanedProductsDraft` issues a DRAFT transition
for a remote product exactly when its status is not already DRAFT and SOME
variant carries a non-empty inventory SKU absent from the filtered feed's SKU
set — not only when the whole SKU set is disjoint from the feed. -/
theorem shopifyProductsNotInEET_mem_iff (skp : List ShopifyProduct)
    (eet : List EETRecord) (p : ShopifyProduct) :
    p ∈ shopifyProductsNotInEET skp eet ↔
      p ∈ skp ∧ p.status ≠ "DRAFT" ∧
      ∃ ns, p.variants = some ns ∧ ∃ v ∈ ns,
        ∃ it, v.inventoryItem = some it ∧
        ∃ s, it.sku = some s ∧ s ≠ "" ∧ s ∉ eet.map EETRecord.varenr := by
  unfold shopifyProductsNotInEET orphanPred
  rw [List.mem_filter]
  by_cases hst : p.status = "DRAFT"
  · simp [hst]
  · simp only [hst, if_false, ne_eq, not_false_iff, true_and]
    cases hv : p.variants with
    | none => simp [hv]
    | some ns => simp [hv, List.any_eq_true, variantMissingFromEET_iff]

/-- Claim C2, counterexample: a product with one variant SKU (`A`) present in
the feed and another (`B`) absent from it IS selected for a DRAFT transition,
although its SKU set intersects the feed's SKU set — refuting both directions
of the claim as stated. -/
theorem orphanDraft_intersection_counterexample :
    twoVariantProduct ∈ shopifyProductsNotInEET [twoVariantProduct] [feedRecordA] ∧
    twoVariantProduct.status ≠ "DRAFT" ∧
    "A" ∈ variantSkus twoVariantProduct ∧
    "A" ∈ [feedRecordA].map EETRecord.varenr := by
  refine ⟨?_, by simp [twoVariantProduct], ?_, by simp [feedRecordA]⟩
  · simp [shopifyProductsNotInEET, orphanPred, variantMissingFromEET, truthyStr,
      twoVariantProduct, feedRecordA]
  · simp [variantSkus, twoVariantProduct]

/-- Claim C6: when the requested quantity differs from the variant's known
`inventoryQuantity` (and the product, variant, inventory item and location
are all present), `updateProductQuantity` issues the inventory mutation as a
delta equal to `newQuantity - oldQuantity`, so that the prior quantity plus
the delta is exactly the requested quantity. -/
theorem updateProductQuantity_sends_delta (sku : String) (nq : ℤ)
    (prod : ShopifyProduct) (nodes : List VariantNode) (variant : VariantNode)
    (item : InventoryItem) (lvl : InventoryLevelNode) (resp : List String)
    (hv : prod.variants = some nodes) (hh : nodes.head? = some variant)
    (hit : variant.inventoryItem = some item) (hl : item.levels.head? = some lvl)
    (hne : variant.inventoryQuantity ≠ nq) :
    (updateProductQuantity sku (some nq) (some prod) resp).1 =
      some ⟨nq - variant.inventoryQuantity, item.id, lvl.locationId⟩ ∧
    variant.inventoryQuantity + (nq - variant.inventoryQuantity) = nq := by
  constructor
  · unfold updateProductQuantity
    simp [hv, hh, hit, hl, hne]
  · omega

/-- Witness for C6: prior quantity 3, requested 7 — the mutation carries
delta `7 - 3`. -/
theorem updateProductQuantity_sends_delta_witness :
    (updateProductQuantity "S6" (some 7) (some wproduct6) []).1 =
      some ⟨7 - wvariant6.inventoryQuantity, witem6.id, wlvl6.locationId⟩ ∧
    wvariant6.inventoryQuantity + (7 - wvariant6.inventoryQuantity) = 7 :=
  updateProductQuantity_sends_delta "S6" 7 wproduct6 [wvariant6] wvariant6 witem6 wlvl6 []
    rfl rfl rfl rfl (by decide)

/-- Claim C9: when the first variant's `inventoryQuantity` already equals the
requested quantity, `updateProductQuantity` issues no mutation and returns
`{success: false}` with error `No inventory item found or quantity not
provided` — a no-change update is reported as a failure. -/
theorem updateProductQuantity_noChange_failure (sku : String) (nq : ℤ)
    (prod : ShopifyProduct) (nodes : List VariantNode) (variant : VariantNode)
    (resp : List String)
    (hv : prod.variants = some nodes) (hh : nodes.head? = some variant)
    (heq : variant.inventoryQuantity = nq) :
    updateProductQuantity sku (some nq) (some prod) resp =
      (none, ⟨false, some "No inventory item found or quantity not provided"⟩) := by
  unfold updateProductQuantity
  simp only [hv, hh]
  cases hit : variant.inventoryItem with
  | none => simp
  | some item => simp [heq]

/-- Witness for C9: prior quantity 3, requested 3 — no mutation, failure
result with the fixed error message. -/
theorem updateProductQuantity_noChange_failure_witness :
    updateProductQuantity "S6" (some 3) (some wproduct6) [] =
      (none, ⟨false, some "No inventory item found or quantity not provided"⟩) :=
  updateProductQuantity_noChange_failure "S6" 3 wproduct6 [wvariant6] wvariant6 [] rfl rfl rfl

/-- Claim C8: `updateProductPrice` always sends `(newPrice / 100)` rounded to
two decimal places as the variant's new price; with the driver passing the
decimal-currency value `Price + VatAmount`, the price written to the remote
catalog is one-hundredth of the computed price (rounded to a whole unit of
the original scale). -/
theorem updateProductPrice_sends_hundredth (sku : String) (basePrice vat : ℚ)
    (prod : ShopifyProduct) (nodes : List VariantNode) (variant : VariantNode)
    (resp : List String)
    (hv : prod.variants = some nodes) (hh : nodes.head? = some variant) :
    (updateProductPrice sku (some (basePrice + vat)) (some prod) resp).1 =
      some ⟨prod.id, variant.id, toFixed2 ((basePrice + vat) / 100)⟩ ∧
    toFixed2 ((basePrice + vat) / 100) = ((round (basePrice + vat) : ℤ) : ℚ) / 100 := by
  constructor
  · unfold updateProductPrice
    simp [hv, hh]
  · unfold toFixed2
    rw [div_mul_cancel₀ _ (by norm_num : (100 : ℚ) ≠ 0)]

/-- Witness for C8: base price 100 plus VAT 25 — the mutation carries
`toFixed2(125 / 100)`, one-hundredth of the computed price. -/
theorem updateProductPrice_sends_hundredth_witness :
    (updateProductPrice "S6" (some ((100 : ℚ) + 25)) (some wproduct6) []).1 =
      some ⟨wproduct6.id, wvariant6.id, toFixed2 (((100 : ℚ) + 25) / 100)⟩ ∧
    toFixed2 (((100 : ℚ) + 25) / 100) = ((round ((100 : ℚ) + 25) : ℤ) : ℚ) / 100 :=
  updateProductPrice_sends_hundredth "S6" 100 25 wproduct6 [wvariant6] wvariant6 [] rfl rfl

theorem foldl_lastQty_no_match (t : String) (rest : List StockEntry) (a : ℤ)
    (h : ∀ st ∈ rest, st.StockTypeName ≠ t) :
    rest.foldl (fun acc st => if st.StockTypeName = t then st.Quantity else acc) a = a := by
  induction rest generalizing a with
  | nil => rfl
  | cons e r ih =>
    have he : e.StockTypeName ≠ t := h e (by simp)
    simp only [List.foldl_cons, if_neg he]
    exact ih a (fun st hst => h st (by simp [hst]))

theorem lastQuantityOf_eq_sum (t : String) (entries : List StockEntry)
    (h : (entries.filter (fun st => st.StockTypeName = t)).length ≤ 1) :
    lastQuantityOf t entries =
      ((entries.filter (fun st => st.StockTypeName = t)).map StockEntry.Quantity).sum := by
  induction entries with
  | nil => rfl
  | cons e rest ih =>
    by_cases he : e.StockTypeName = t
    · have hcons : (e :: rest).filter (fun st => st.StockTypeName = t) =
          e :: rest.filter (fun st => st.StockTypeName = t) :=
        List.filter_cons_of_pos (by simp [he])
      have hnil : rest.filter (fun st => st.StockTypeName = t) = [] := by
        rw [hcons] at h
        simp only [List.length_cons] at h
        exact List.eq_nil_of_length_eq_zero (by omega)
      have hno : ∀ st ∈ rest, st.StockTypeName ≠ t := by
        intro st hst
        have := List.filter_eq_nil_iff.mp hnil st hst
        simpa using this
      unfold lastQuantityOf
      simp only [List.foldl_cons, if_pos he]
      rw [foldl_lastQty_no_match t rest e.Quantity hno, hcons, hnil]
      simp
    · have hcons : (e :: rest).filter (fun st => st.StockTypeName = t) =
          rest.filter (fun st => st.StockTypeName = t) :=
        List.filter_cons_of_neg (by simp [he])
      have h2 : (rest.filter (fun st => st.StockTypeName = t)).length ≤ 1 := by
        rw [hcons] at h; exact h
      unfold lastQuantityOf at ih ⊢
      simp only [List.foldl_cons, if_neg he]
      rw [ih h2, hcons]

/-- Claim C1 (amended): in the live-update phase the availability used by the
driver is `localStock + remoteStock` with Incoming excluded (each stock
variable holds the LAST entry of its type; when each of Local and Remote
occurs at most once this equals the sum of the Local and Remote quantities);
when the stock list is non-empty the driver updates the quantity to that
availability and transitions the product to ACTIVE — even when the
availability is zero; a DRAFT transition is issued only when the stock list
is present but empty. -/
theorem processEetItem_stock_policy (item : EETItem) (pr : EETPriceInfo)
    (entries : List StockEntry) (product : ShopifyProduct) (brandName : String)
    (hp : item.Price = some pr) (hs : item.Stock = some entries)
    (hL : (entries.filter (fun st => st.StockTypeName = "Local")).length ≤ 1)
    (hR : (entries.filter (fun st => st.StockTypeName = "Remote")).length ≤ 1) :
    lastQuantityOf "Local" entries + lastQuantityOf "Remote" entries =
      ((entries.filter (fun st => st.StockTypeName = "Local")).map StockEntry.Quantity).sum +
      ((entries.filter (fun st => st.StockTypeName = "Remote")).map StockEntry.Quantity).sum ∧
    (entries ≠ [] →
      DriverAction.quantityUpdateCall item.ItemId
          (lastQuantityOf "Local" entries + lastQuantityOf "Remote" entries) ∈
        (processEetItem item (some product) brandName).1 ∧
      DriverAction.makeActiveCall (some product) ∈
        (processEetItem item (some product) brandName).1 ∧
      DriverAction.makeDraftCall product ∉
        (processEetItem item (some product) brandName).1) ∧
    (entries = [] →
      DriverAction.makeDraftCall product ∈
        (processEetItem item (some product) brandName).1 ∧
      DriverAction.makeActiveCall (some product) ∉
        (processEetItem item (some product) brandName).1 ∧
      ∀ q : ℤ, DriverAction.quantityUpdateCall item.ItemId q ∉
        (processEetItem item (some product) brandName).1) := by
  refine ⟨lastQuantityOf_eq_sum "Local" entries hL ▸
    lastQuantityOf_eq_sum "Remote" entries hR ▸ rfl, ?_, ?_⟩
  · intro hne
    have hlen : 0 < entries.length := List.length_pos.mpr hne
    unfold processEetItem
    simp only [hp, hs, hlen, if_pos]
    by_cases hb : brandName ≠ "" <;> simp [hb]
  · intro hnil
    subst hnil
    unfold processEetItem
    simp only [hp, hs]
    by_cases hb : brandName ≠ "" <;> simp [hb]

/-- Witness for C1 (amended): with stock `[Local 3, Remote 2, Incoming 10]`
the driver issues a quantity update of `3 + 2` and an ACTIVE transition. -/
theorem processEetItem_stock_policy_witness :
    DriverAction.quantityUpdateCall "W1"
        (lastQuantityOf "Local" [⟨"Local", 3⟩, ⟨"Remote", 2⟩, ⟨"Incoming", 10⟩] +
         lastQuantityOf "Remote" [⟨"Local", 3⟩, ⟨"Remote", 2⟩, ⟨"Incoming", 10⟩]) ∈
      (processEetItem witnessItem1 (some witnessProduct1) "Br").1 ∧
    DriverAction.makeActiveCall (some witnessProduct1) ∈
      (processEetItem witnessItem1 (some witnessProduct1) "Br").1 := by
  have h := processEetItem_stock_policy witnessItem1 ⟨10, 2⟩
    [⟨"Local", 3⟩, ⟨"Remote", 2⟩, ⟨"Incoming", 10⟩] witnessProduct1 "Br"
    rfl rfl (by decide) (by decide)
  exact ⟨(h.2.1 (by decide)).1, (h.2.1 (by decide)).2.1⟩

/-- Claim C1, counterexample: for the stock list `[{Incoming, 10}]` the
Local+Remote availability is `0`, yet the driver transitions the matched
product to ACTIVE and updates its quantity to `0`; no DRAFT transition is
issued, contrary to the claim. -/
theorem processEetItem_incomingOnly_counterexample :
    lastQuantityOf "Local" [⟨"Incoming", 10⟩] +
      lastQuantityOf "Remote" [⟨"Incoming", 10⟩] = 0 ∧
    processEetItem incomingOnlyItem (some matchedProduct1) "" =
      ([DriverAction.priceUpdateCall "SKU1" 125,
        DriverAction.quantityUpdateCall "SKU1" 0,
        DriverAction.stockObjectCall "SKU1" [⟨"Incoming", 10⟩],
        DriverAction.makeActiveCall (some matchedProduct1)], none) := by
  constructor
  · decide
  · simp only [processEetItem, incomingOnlyItem]
    norm_num [lastQuantityOf]
    decide

/-- Claim C5 (code-bug evidence): for a vendor item with no `Price` object
the unguarded read `eetItem.Price.Price` throws before any remote call, so
the item's stock, visibility and metadata processing is skipped entirely —
not just the price update as the claim (and the code's own guards) intend. -/
theorem processEetItem_missingPrice_aborts :
    processEetItem noPriceItem (some matchedProduct2) "BrandX" =
      ([], some "TypeError: cannot read Price of undefined") := rfl

/-- Claim C10: when the configuration file is missing or unparsable,
`loadFilterConfig` falls back to `{ include: {}, exclude: {} }`, and under
that default configuration `filterProducts` returns every record list
unchanged (all passes are inactive). -/
theorem loadFilterConfig_default_id :
    loadFilterConfig none = { incl := some {}, excl := some {} } ∧
    ∀ l : List EETRecord, filterProducts (loadFilterConfig none) l = l := by
  refine ⟨rfl, fun l => ?_⟩
  simp [loadFilterConfig, filterProducts, includePass, excludeBrandPass, excludeSkuPass,
    limitPass]

end EETShopify
